import Mathlib

set_option maxRecDepth 8000
set_option maxHeartbeats 2000000

/-!
Verification development for the `itpey/totp` Go package.

The Go sources (`totp.go`, `config.go`) are shallowly embedded below.
Byte strings are modelled as `List Nat` (each entry a byte value 0..255);
machine words are `Nat` reduced modulo 2^32 / 2^64 at the operations where
the fixed-width Go arithmetic wraps; Go panics are modelled as `none` of an
`Option` result.
-/

/-- Bytes of an ASCII string literal (used only to transcribe the
ASCII string constants of the repository into byte lists). -/
def ascii (s : String) : List Nat := s.data.map Char.toNat

/-- Reduce modulo 2^32 (Go `uint32`/`byte` word arithmetic). -/
def w32 (x : Nat) : Nat := x % 4294967296

/-- Reduce modulo 2^64 (Go `uint64` arithmetic). -/
def w64 (x : Nat) : Nat := x % 18446744073709551616

/-- Bitwise complement on 32-bit words. -/
def not32 (x : Nat) : Nat := x ^^^ 4294967295

/-- Bitwise complement on 64-bit words. -/
def not64 (x : Nat) : Nat := x ^^^ 18446744073709551615

/-- 32-bit rotate left. -/
def rotl32 (n x : Nat) : Nat := w32 ((x <<< n) ||| (x >>> (32 - n)))

/-- 32-bit rotate right. -/
def rotr32 (n x : Nat) : Nat := w32 ((x >>> n) ||| (x <<< (32 - n)))

/-- 64-bit rotate left. -/
def rotl64 (n x : Nat) : Nat := w64 ((x <<< n) ||| (x >>> (64 - n)))

/-- 64-bit rotate right. -/
def rotr64 (n x : Nat) : Nat := w64 ((x >>> n) ||| (x <<< (64 - n)))

/-- Little-endian 32-bit words from bytes (groups of 4; a trailing
partial group is dropped, which never happens on block-aligned input). -/
def leWords4 : List Nat → List Nat
  | a :: b :: c :: d :: rest => (a + 256 * b + 65536 * c + 16777216 * d) :: leWords4 rest
  | _ => []

/-- Big-endian 32-bit words from bytes. -/
def beWords4 : List Nat → List Nat
  | a :: b :: c :: d :: rest => (16777216 * a + 65536 * b + 256 * c + d) :: beWords4 rest
  | _ => []

/-- Big-endian 64-bit words from bytes. -/
def beWords8 : List Nat → List Nat
  | a :: b :: c :: d :: e :: f :: g :: h :: rest =>
      (((((((a * 256 + b) * 256 + c) * 256 + d) * 256 + e) * 256 + f) * 256 + g) * 256 + h)
        :: beWords8 rest
  | _ => []

/-- Little-endian 64-bit words from bytes. -/
def leWords8 : List Nat → List Nat
  | a :: b :: c :: d :: e :: f :: g :: h :: rest =>
      (((((((h * 256 + g) * 256 + f) * 256 + e) * 256 + d) * 256 + c) * 256 + b) * 256 + a)
        :: leWords8 rest
  | _ => []

/-- The 4 bytes of a 32-bit word, little-endian. -/
def le4 (x : Nat) : List Nat := [x % 256, x / 256 % 256, x / 65536 % 256, x / 16777216 % 256]

/-- The 4 bytes of a 32-bit word, big-endian. -/
def be4 (x : Nat) : List Nat := [x / 16777216 % 256, x / 65536 % 256, x / 256 % 256, x % 256]

/-- The 8 bytes of a 64-bit word, little-endian. -/
def le8 (x : Nat) : List Nat := le4 (x % 4294967296) ++ le4 (x / 4294967296)

/-- The 8 bytes of a 64-bit word, big-endian. -/
def be8 (x : Nat) : List Nat := be4 (x / 4294967296) ++ be4 (x % 4294967296)

/-- Split a list into chunks of `n` elements (fuel-driven so that it reduces
in the kernel; callers pass the list length as fuel). -/
def chunkN (n : Nat) : Nat → List Nat → List (List Nat)
  | 0, _ => []
  | _, [] => []
  | fuel + 1, l => l.take n :: chunkN n fuel (l.drop n)

/-- Definitional identity that makes kernel reduction force a byte or word
list eagerly (keeps reduction depth proportional to one compression
instead of a whole digest chain). -/
def forceList (l : List Nat) : List Nat := if l = l then l else l

/-- Definitional identity forcing a 4-word state (see `forceList`). -/
def force4 (s : Nat × Nat × Nat × Nat) : Nat × Nat × Nat × Nat := if s = s then s else s

/-- Definitional identity forcing a 5-word state (see `forceList`). -/
def force5 (s : Nat × Nat × Nat × Nat × Nat) : Nat × Nat × Nat × Nat × Nat :=
  if s = s then s else s

/-! ### MD5 (RFC 1321), as in Go `crypto/md5` -/

/-- The 64 MD5 sine-derived constants. -/
def md5K : List Nat :=
  [0xd76aa478, 0xe8c7b756, 0x242070db, 0xc1bdceee, 0xf57c0faf, 0x4787c62a, 0xa8304613, 0xfd469501,
   0x698098d8, 0x8b44f7af, 0xffff5bb1, 0x895cd7be, 0x6b901122, 0xfd987193, 0xa679438e, 0x49b40821,
   0xf61e2562, 0xc040b340, 0x265e5a51, 0xe9b6c7aa, 0xd62f105d, 0x02441453, 0xd8a1e681, 0xe7d3fbc8,
   0x21e1cde6, 0xc33707d6, 0xf4d50d87, 0x455a14ed, 0xa9e3e905, 0xfcefa3f8, 0x676f02d9, 0x8d2a4c8a,
   0xfffa3942, 0x8771f681, 0x6d9d6122, 0xfde5380c, 0xa4beea44, 0x4bdecfa9, 0xf6bb4b60, 0xbebfbc70,
   0x289b7ec6, 0xeaa127fa, 0xd4ef3085, 0x04881d05, 0xd9d4d039, 0xe6db99e5, 0x1fa27cf8, 0xc4ac5665,
   0xf4292244, 0x432aff97, 0xab9423a7, 0xfc93a039, 0x655b59c3, 0x8f0ccc92, 0xffeff47d, 0x85845dd1,
   0x6fa87e4f, 0xfe2ce6e0, 0xa3014314, 0x4e0811a1, 0xf7537e82, 0xbd3af235, 0x2ad7d2bb, 0xeb86d391]

/-- The MD5 per-step left-rotation amounts. -/
def md5S : List Nat :=
  [7, 12, 17, 22, 7, 12, 17, 22, 7, 12, 17, 22, 7, 12, 17, 22,
   5, 9, 14, 20, 5, 9, 14, 20, 5, 9, 14, 20, 5, 9, 14, 20,
   4, 11, 16, 23, 4, 11, 16, 23, 4, 11, 16, 23, 4, 11, 16, 23,
   6, 10, 15, 21, 6, 10, 15, 21, 6, 10, 15, 21, 6, 10, 15, 21]

/-- One MD5 step on the running state. -/
def md5Step (X : List Nat) (st : Nat × Nat × Nat × Nat) (i : Nat) : Nat × Nat × Nat × Nat :=
  match st with
  | (a, b, c, d) =>
    let f :=
      if i < 16 then (b &&& c) ||| (not32 b &&& d)
      else if i < 32 then (d &&& b) ||| (not32 d &&& c)
      else if i < 48 then b ^^^ c ^^^ d
      else c ^^^ (b ||| not32 d)
    let g :=
      if i < 16 then i
      else if i < 32 then (5 * i + 1) % 16
      else if i < 48 then (3 * i + 5) % 16
      else (7 * i) % 16
    let tmp := w32 (a + f + md5K.getD i 0 + X.getD g 0)
    force4 (d, w32 (b + rotl32 (md5S.getD i 0) tmp), b, c)

/-- MD5 compression of one 64-byte block. -/
def md5Block (st : Nat × Nat × Nat × Nat) (block : List Nat) : Nat × Nat × Nat × Nat :=
  let X := leWords4 block
  match st, (List.range 64).foldl (md5Step X) st with
  | (a0, b0, c0, d0), (a, b, c, d) =>
    force4 (w32 (a + a0), w32 (b + b0), w32 (c + c0), w32 (d + d0))

/-- MD5 padding: 0x80, zeros, 64-bit little-endian bit length. -/
def md5Pad (msg : List Nat) : List Nat :=
  let len := msg.length
  let k := (55 + 64 - len % 64) % 64
  msg ++ [128] ++ List.replicate k 0 ++ le8 (w64 (8 * len))

/-- MD5 digest (16 bytes). -/
def md5 (msg : List Nat) : List Nat :=
  let p := md5Pad msg
  match (chunkN 64 p.length p).foldl md5Block (0x67452301, 0xefcdab89, 0x98badcfe, 0x10325476) with
  | (a, b, c, d) => le4 a ++ le4 b ++ le4 c ++ le4 d

/-! ### SHA-1 (FIPS 180), as in Go `crypto/sha1` -/

/-- SHA-1 message schedule (80 words) from the 16 block words. -/
def sha1W (X : List Nat) : List Nat :=
  (List.range 80).foldl (fun w t =>
    if t < 16 then forceList (w ++ [X.getD t 0])
    else forceList (w ++ [rotl32 1 (w.getD (t - 3) 0 ^^^ w.getD (t - 8) 0 ^^^
                          w.getD (t - 14) 0 ^^^ w.getD (t - 16) 0)])) []

/-- One SHA-1 round. -/
def sha1Step (W : List Nat) (st : Nat × Nat × Nat × Nat × Nat) (t : Nat) :
    Nat × Nat × Nat × Nat × Nat :=
  match st with
  | (a, b, c, d, e) =>
    let f :=
      if t < 20 then (b &&& c) ||| (not32 b &&& d)
      else if t < 40 then b ^^^ c ^^^ d
      else if t < 60 then (b &&& c) ||| (b &&& d) ||| (c &&& d)
      else b ^^^ c ^^^ d
    let k :=
      if t < 20 then 0x5a827999
      else if t < 40 then 0x6ed9eba1
      else if t < 60 then 0x8f1bbcdc
      else 0xca62c1d6
    let tmp := w32 (rotl32 5 a + f + e + k + W.getD t 0)
    force5 (tmp, a, rotl32 30 b, c, d)

/-- SHA-1 compression of one 64-byte block. -/
def sha1Block (st : Nat × Nat × Nat × Nat × Nat) (block : List Nat) :
    Nat × Nat × Nat × Nat × Nat :=
  let W := sha1W (beWords4 block)
  match st, (List.range 80).foldl (sha1Step W) st with
  | (a0, b0, c0, d0, e0), (a, b, c, d, e) =>
    force5 (w32 (a + a0), w32 (b + b0), w32 (c + c0), w32 (d + d0), w32 (e + e0))

/-- SHA-1/SHA-256 padding: 0x80, zeros, 64-bit big-endian bit length. -/
def shaPadBE (msg : List Nat) : List Nat :=
  let len := msg.length
  let k := (55 + 64 - len % 64) % 64
  msg ++ [128] ++ List.replicate k 0 ++ be8 (w64 (8 * len))

/-- SHA-1 digest (20 bytes). -/
def sha1 (msg : List Nat) : List Nat :=
  let p := shaPadBE msg
  match (chunkN 64 p.length p).foldl sha1Block
      (0x67452301, 0xefcdab89, 0x98badcfe, 0x10325476, 0xc3d2e1f0) with
  | (a, b, c, d, e) => be4 a ++ be4 b ++ be4 c ++ be4 d ++ be4 e

/-! ### SHA-224/SHA-256, as in Go `crypto/sha256` -/

/-- The 64 SHA-256 round constants. -/
def sha256K : List Nat :=
  [0x428A2F98, 0x71374491, 0xB5C0FBCF, 0xE9B5DBA5, 0x3956C25B, 0x59F111F1, 0x923F82A4, 0xAB1C5ED5,
   0xD807AA98, 0x12835B01, 0x243185BE, 0x550C7DC3, 0x72BE5D74, 0x80DEB1FE, 0x9BDC06A7, 0xC19BF174,
   0xE49B69C1, 0xEFBE4786, 0x0FC19DC6, 0x240CA1CC, 0x2DE92C6F, 0x4A7484AA, 0x5CB0A9DC, 0x76F988DA,
   0x983E5152, 0xA831C66D, 0xB00327C8, 0xBF597FC7, 0xC6E00BF3, 0xD5A79147, 0x06CA6351, 0x14292967,
   0x27B70A85, 0x2E1B2138, 0x4D2C6DFC, 0x53380D13, 0x650A7354, 0x766A0ABB, 0x81C2C92E, 0x92722C85,
   0xA2BFE8A1, 0xA81A664B, 0xC24B8B70, 0xC76C51A3, 0xD192E819, 0xD6990624, 0xF40E3585, 0x106AA070,
   0x19A4C116, 0x1E376C08, 0x2748774C, 0x34B0BCB5, 0x391C0CB3, 0x4ED8AA4A, 0x5B9CCA4F, 0x682E6FF3,
   0x748F82EE, 0x78A5636F, 0x84C87814, 0x8CC70208, 0x90BEFFFA, 0xA4506CEB, 0xBEF9A3F7, 0xC67178F2]

/-- SHA-256 message schedule (64 words). -/
def sha256W (X : List Nat) : List Nat :=
  (List.range 64).foldl (fun w t =>
    if t < 16 then forceList (w ++ [X.getD t 0])
    else
      let x15 := w.getD (t - 15) 0
      let x2 := w.getD (t - 2) 0
      let s0 := rotr32 7 x15 ^^^ rotr32 18 x15 ^^^ (x15 >>> 3)
      let s1 := rotr32 17 x2 ^^^ rotr32 19 x2 ^^^ (x2 >>> 10)
      forceList (w ++ [w32 (w.getD (t - 16) 0 + s0 + w.getD (t - 7) 0 + s1)])) []

/-- One SHA-256 round on the 8-word state. -/
def sha256Step (W : List Nat) (v : List Nat) (t : Nat) : List Nat :=
  match v with
  | [a, b, c, d, e, f, g, h] =>
    let S1 := rotr32 6 e ^^^ rotr32 11 e ^^^ rotr32 25 e
    let ch := (e &&& f) ^^^ (not32 e &&& g)
    let t1 := w32 (h + S1 + ch + sha256K.getD t 0 + W.getD t 0)
    let S0 := rotr32 2 a ^^^ rotr32 13 a ^^^ rotr32 22 a
    let mj := (a &&& b) ^^^ (a &&& c) ^^^ (b &&& c)
    let t2 := w32 (S0 + mj)
    forceList [w32 (t1 + t2), a, b, c, w32 (d + t1), e, f, g]
  | _ => v

/-- SHA-256 compression of one 64-byte block. -/
def sha256Block (st : List Nat) (block : List Nat) : List Nat :=
  let W := sha256W (beWords4 block)
  let fin := (List.range 64).foldl (sha256Step W) st
  forceList ((List.range 8).map (fun i => w32 (st.getD i 0 + fin.getD i 0)))

/-- SHA-256 initial state. -/
def sha256IV : List Nat :=
  [0x6A09E667, 0xBB67AE85, 0x3C6EF372, 0xA54FF53A, 0x510E527F, 0x9B05688C, 0x1F83D9AB, 0x5BE0CD19]

/-- SHA-224 initial state. -/
def sha224IV : List Nat :=
  [0xC1059ED8, 0x367CD507, 0x3070DD17, 0xF70E5939, 0xFFC00B31, 0x68581511, 0x64F98FA7, 0xBEFA4FA4]

/-- SHA-256 digest (32 bytes). -/
def sha256 (msg : List Nat) : List Nat :=
  let p := shaPadBE msg
  (((chunkN 64 p.length p).foldl sha256Block sha256IV).map be4).flatten

/-- SHA-224 digest (28 bytes). -/
def sha224 (msg : List Nat) : List Nat :=
  let p := shaPadBE msg
  ((((chunkN 64 p.length p).foldl sha256Block sha224IV).map be4).flatten).take 28

/-! ### SHA-384/SHA-512, as in Go `crypto/sha512` -/

/-- The 80 SHA-512 round constants. -/
def sha512K : List Nat :=
  [0x428A2F98D728AE22, 0x7137449123EF65CD, 0xB5C0FBCFEC4D3B2F, 0xE9B5DBA58189DBBC,
   0x3956C25BF348B538, 0x59F111F1B605D019, 0x923F82A4AF194F9B, 0xAB1C5ED5DA6D8118,
   0xD807AA98A3030242, 0x12835B0145706FBE, 0x243185BE4EE4B28C, 0x550C7DC3D5FFB4E2,
   0x72BE5D74F27B896F, 0x80DEB1FE3B1696B1, 0x9BDC06A725C71235, 0xC19BF174CF692694,
   0xE49B69C19EF14AD2, 0xEFBE4786384F25E3, 0x0FC19DC68B8CD5B5, 0x240CA1CC77AC9C65,
   0x2DE92C6F592B0275, 0x4A7484AA6EA6E483, 0x5CB0A9DCBD41FBD4, 0x76F988DA831153B5,
   0x983E5152EE66DFAB, 0xA831C66D2DB43210, 0xB00327C898FB213F, 0xBF597FC7BEEF0EE4,
   0xC6E00BF33DA88FC2, 0xD5A79147930AA725, 0x06CA6351E003826F, 0x142929670A0E6E70,
   0x27B70A8546D22FFC, 0x2E1B21385C26C926, 0x4D2C6DFC5AC42AED, 0x53380D139D95B3DF,
   0x650A73548BAF63DE, 0x766A0ABB3C77B2A8, 0x81C2C92E47EDAEE6, 0x92722C851482353B,
   0xA2BFE8A14CF10364, 0xA81A664BBC423001, 0xC24B8B70D0F89791, 0xC76C51A30654BE30,
   0xD192E819D6EF5218, 0xD69906245565A910, 0xF40E35855771202A, 0x106AA07032BBD1B8,
   0x19A4C116B8D2D0C8, 0x1E376C085141AB53, 0x2748774CDF8EEB99, 0x34B0BCB5E19B48A8,
   0x391C0CB3C5C95A63, 0x4ED8AA4AE3418ACB, 0x5B9CCA4F7763E373, 0x682E6FF3D6B2B8A3,
   0x748F82EE5DEFB2FC, 0x78A5636F43172F60, 0x84C87814A1F0AB72, 0x8CC702081A6439EC,
   0x90BEFFFA23631E28, 0xA4506CEBDE82BDE9, 0xBEF9A3F7B2C67915, 0xC67178F2E372532B,
   0xCA273ECEEA26619C, 0xD186B8C721C0C207, 0xEADA7DD6CDE0EB1E, 0xF57D4F7FEE6ED178,
   0x06F067AA72176FBA, 0x0A637DC5A2C898A6, 0x113F9804BEF90DAE, 0x1B710B35131C471B,
   0x28DB77F523047D84, 0x32CAAB7B40C72493, 0x3C9EBE0A15C9BEBC, 0x431D67C49C100D4C,
   0x4CC5D4BECB3E42B6, 0x597F299CFC657E2A, 0x5FCB6FAB3AD6FAEC, 0x6C44198C4A475817]

/-- SHA-512 message schedule (80 words). -/
def sha512W (X : List Nat) : List Nat :=
  (List.range 80).foldl (fun w t =>
    if t < 16 then forceList (w ++ [X.getD t 0])
    else
      let x15 := w.getD (t - 15) 0
      let x2 := w.getD (t - 2) 0
      let s0 := rotr64 1 x15 ^^^ rotr64 8 x15 ^^^ (x15 >>> 7)
      let s1 := rotr64 19 x2 ^^^ rotr64 61 x2 ^^^ (x2 >>> 6)
      forceList (w ++ [w64 (w.getD (t - 16) 0 + s0 + w.getD (t - 7) 0 + s1)])) []

/-- One SHA-512 round on the 8-word state. -/
def sha512Step (W : List Nat) (v : List Nat) (t : Nat) : List Nat :=
  match v with
  | [a, b, c, d, e, f, g, h] =>
    let S1 := rotr64 14 e ^^^ rotr64 18 e ^^^ rotr64 41 e
    let ch := (e &&& f) ^^^ (not64 e &&& g)
    let t1 := w64 (h + S1 + ch + sha512K.getD t 0 + W.getD t 0)
    let S0 := rotr64 28 a ^^^ rotr64 34 a ^^^ rotr64 39 a
    let mj := (a &&& b) ^^^ (a &&& c) ^^^ (b &&& c)
    let t2 := w64 (S0 + mj)
    forceList [w64 (t1 + t2), a, b, c, w64 (d + t1), e, f, g]
  | _ => v

/-- SHA-512 compression of one 128-byte block. -/
def sha512Block (st : List Nat) (block : List Nat) : List Nat :=
  let W := sha512W (beWords8 block)
  let fin := (List.range 80).foldl (sha512Step W) st
  forceList ((List.range 8).map (fun i => w64 (st.getD i 0 + fin.getD i 0)))

/-- SHA-384/512 padding: 0x80, zeros, 128-bit big-endian bit length. -/
def shaPad128 (msg : List Nat) : List Nat :=
  let len := msg.length
  let k := (111 + 128 - len % 128) % 128
  msg ++ [128] ++ List.replicate k 0 ++ List.replicate 8 0 ++ be8 (w64 (8 * len))

/-- SHA-512 initial state. -/
def sha512IV : List Nat :=
  [0x6A09E667F3BCC908, 0xBB67AE8584CAA73B, 0x3C6EF372FE94F82B, 0xA54FF53A5F1D36F1,
   0x510E527FADE682D1, 0x9B05688C2B3E6C1F, 0x1F83D9ABFB41BD6B, 0x5BE0CD19137E2179]

/-- SHA-384 initial state. -/
def sha384IV : List Nat :=
  [0xCBBB9D5DC1059ED8, 0x629A292A367CD507, 0x9159015A3070DD17, 0x152FECD8F70E5939,
   0x67332667FFC00B31, 0x8EB44A8768581511, 0xDB0C2E0D64F98FA7, 0x47B5481DBEFA4FA4]

/-- SHA-512 digest (64 bytes). -/
def sha512 (msg : List Nat) : List Nat :=
  let p := shaPad128 msg
  (((chunkN 128 p.length p).foldl sha512Block sha512IV).map be8).flatten

/-- SHA-384 digest (48 bytes). -/
def sha384 (msg : List Nat) : List Nat :=
  let p := shaPad128 msg
  ((((chunkN 128 p.length p).foldl sha512Block sha384IV).map be8).flatten).take 48

/-! ### SHA3-224/256/384/512 (FIPS 202 / Keccak), as in Go `crypto/sha3` -/

/-- Keccak theta step on the 25-lane state (lane `i` holds `A[x,y]` with
`i = x + 5*y`). -/
def keccakTheta (A : List Nat) : List Nat :=
  let C := (List.range 5).map (fun x =>
    A.getD x 0 ^^^ A.getD (x + 5) 0 ^^^ A.getD (x + 10) 0 ^^^
    A.getD (x + 15) 0 ^^^ A.getD (x + 20) 0)
  let D := (List.range 5).map (fun x =>
    C.getD ((x + 4) % 5) 0 ^^^ rotl64 1 (C.getD ((x + 1) % 5) 0))
  (List.range 25).map (fun i => A.getD i 0 ^^^ D.getD (i % 5) 0)

/-- Keccak rho rotation offsets, from the standard `(t+1)(t+2)/2` walk. -/
def keccakRhoOffsets : List Nat :=
  (((List.range 24).foldl (fun st t =>
      match st with
      | (x, y, tbl) =>
        (y, (2 * x + 3 * y) % 5, tbl.set (x + 5 * y) ((t + 1) * (t + 2) / 2 % 64)))
    ((1 : Nat), (0 : Nat), List.replicate 25 (0 : Nat)))).2.2

/-- Keccak rho+pi: rotate each lane and move it to its pi position. -/
def keccakRhoPi (A : List Nat) : List Nat :=
  (List.range 25).foldl (fun B i =>
    let x := i % 5
    let y := i / 5
    B.set (y + 5 * ((2 * x + 3 * y) % 5)) (rotl64 (keccakRhoOffsets.getD i 0) (A.getD i 0)))
    (List.replicate 25 0)

/-- Keccak chi step. -/
def keccakChi (B : List Nat) : List Nat :=
  (List.range 25).map (fun i =>
    let x := i % 5
    let y := i / 5
    B.getD i 0 ^^^ (not64 (B.getD ((x + 1) % 5 + 5 * y) 0) &&& B.getD ((x + 2) % 5 + 5 * y) 0))

/-- The 24 Keccak round constants. -/
def keccakRC : List Nat :=
  [0x0000000000000001, 0x0000000000008082, 0x800000000000808a, 0x8000000080008000,
   0x000000000000808b, 0x0000000080000001, 0x8000000080008081, 0x8000000000008009,
   0x000000000000008a, 0x0000000000000088, 0x0000000080008009, 0x000000008000000a,
   0x000000008000808b, 0x800000000000008b, 0x8000000000008089, 0x8000000000008003,
   0x8000000000008002, 0x8000000000000080, 0x000000000000800a, 0x800000008000000a,
   0x8000000080008081, 0x8000000000008080, 0x0000000080000001, 0x8000000080008008]

/-- The Keccak-f[1600] permutation (24 rounds). -/
def keccakF (A : List Nat) : List Nat :=
  keccakRC.foldl (fun st rc =>
    let B := keccakChi (keccakRhoPi (keccakTheta st))
    forceList (B.set 0 (B.getD 0 0 ^^^ rc))) A

/-- SHA-3 domain padding (`0x06 .. 0x80` pad10*1). -/
def sha3Pad (rate : Nat) (msg : List Nat) : List Nat :=
  let q := rate - msg.length % rate
  if q = 1 then msg ++ [0x86]
  else msg ++ [0x06] ++ List.replicate (q - 2) 0 ++ [0x80]

/-- Absorb one `rate`-byte block into the Keccak state. -/
def keccakAbsorbBlock (st : List Nat) (block : List Nat) : List Nat :=
  let lanes := leWords8 block
  keccakF ((List.range 25).map (fun i => st.getD i 0 ^^^ lanes.getD i 0))

/-- Generic SHA-3 digest with the given rate (bytes) and output length. -/
def sha3 (rate outLen : Nat) (msg : List Nat) : List Nat :=
  let p := sha3Pad rate msg
  let st := (chunkN rate p.length p).foldl keccakAbsorbBlock (List.replicate 25 0)
  ((st.map le8).flatten).take outLen

/-- SHA3-224 digest (28 bytes, rate 144). -/
def sha3x224 (msg : List Nat) : List Nat := sha3 144 28 msg

/-- SHA3-256 digest (32 bytes, rate 136). -/
def sha3x256 (msg : List Nat) : List Nat := sha3 136 32 msg

/-- SHA3-384 digest (48 bytes, rate 104). -/
def sha3x384 (msg : List Nat) : List Nat := sha3 104 48 msg

/-- SHA3-512 digest (64 bytes, rate 72). -/
def sha3x512 (msg : List Nat) : List Nat := sha3 72 64 msg

/-! ### BLAKE2b / BLAKE2s (RFC 7693), as in `golang.org/x/crypto/blake2b`,
`golang.org/x/crypto/blake2s` (unkeyed) -/

/-- The BLAKE2 message-word permutation table (10 rows). -/
def blake2Sigma : List (List Nat) :=
  [[0, 1, 2, 3, 4, 5, 6, 7, 8, 9, 10, 11, 12, 13, 14, 15],
   [14, 10, 4, 8, 9, 15, 13, 6, 1, 12, 0, 2, 11, 7, 5, 3],
   [11, 8, 12, 0, 5, 2, 15, 13, 10, 14, 3, 6, 7, 1, 9, 4],
   [7, 9, 3, 1, 13, 12, 11, 14, 2, 6, 5, 10, 4, 0, 15, 8],
   [9, 0, 5, 7, 2, 4, 10, 15, 14, 1, 11, 12, 6, 8, 3, 13],
   [2, 12, 6, 10, 0, 11, 8, 3, 4, 13, 7, 5, 15, 14, 1, 9],
   [12, 5, 1, 15, 14, 13, 4, 10, 0, 7, 6, 3, 9, 2, 8, 11],
   [13, 11, 7, 14, 12, 1, 3, 9, 5, 0, 15, 4, 8, 6, 2, 10],
   [6, 15, 14, 9, 11, 3, 0, 8, 12, 2, 13, 7, 1, 4, 10, 5],
   [10, 2, 8, 4, 7, 6, 1, 5, 15, 11, 9, 14, 3, 12, 13, 0]]

/-- The BLAKE2b G mixing function on the 16-word work vector. -/
def blake2bG (v : List Nat) (a b c d x y : Nat) : List Nat :=
  let va := w64 (v.getD a 0 + v.getD b 0 + x)
  let vd := rotr64 32 (v.getD d 0 ^^^ va)
  let vc := w64 (v.getD c 0 + vd)
  let vb := rotr64 24 (v.getD b 0 ^^^ vc)
  let va2 := w64 (va + vb + y)
  let vd2 := rotr64 16 (vd ^^^ va2)
  let vc2 := w64 (vc + vd2)
  let vb2 := rotr64 63 (vb ^^^ vc2)
  forceList ((((v.set a va2).set b vb2).set c vc2).set d vd2)

/-- One BLAKE2b round. -/
def blake2bRound (m : List Nat) (v : List Nat) (r : Nat) : List Nat :=
  let s := blake2Sigma.getD (r % 10) []
  let g := fun (v : List Nat) (a b c d i j : Nat) =>
    blake2bG v a b c d (m.getD (s.getD i 0) 0) (m.getD (s.getD j 0) 0)
  let v1 := g v 0 4 8 12 0 1
  let v2 := g v1 1 5 9 13 2 3
  let v3 := g v2 2 6 10 14 4 5
  let v4 := g v3 3 7 11 15 6 7
  let v5 := g v4 0 5 10 15 8 9
  let v6 := g v5 1 6 11 12 10 11
  let v7 := g v6 2 7 8 13 12 13
  g v7 3 4 9 14 14 15

/-- BLAKE2b compression (t = byte counter, last = final-block flag). -/
def blake2bCompress (h : List Nat) (block : List Nat) (t : Nat) (last : Bool) : List Nat :=
  let m := leWords8 block
  let v0 := h ++ sha512IV
  let v1 := (v0.set 12 (v0.getD 12 0 ^^^ w64 t)).set 13 (v0.getD 13 0 ^^^ (t / 18446744073709551616))
  let v2 := if last then v1.set 14 (not64 (v1.getD 14 0)) else v1
  let vf := (List.range 12).foldl (blake2bRound m) v2
  forceList ((List.range 8).map (fun i => h.getD i 0 ^^^ vf.getD i 0 ^^^ vf.getD (i + 8) 0))

/-- Unkeyed BLAKE2b digest of `nn` bytes. -/
def blake2b (nn : Nat) (msg : List Nat) : List Nat :=
  let h0 := sha512IV.set 0 (sha512IV.getD 0 0 ^^^ (0x01010000 ^^^ nn))
  let L := msg.length
  let hFin :=
    if L = 0 then blake2bCompress h0 (List.replicate 128 0) 0 true
    else
      let nB := (L + 127) / 128
      let hMid := (List.range (nB - 1)).foldl
        (fun h i => blake2bCompress h ((msg.drop (128 * i)).take 128) (128 * (i + 1)) false) h0
      let lastB := msg.drop (128 * (nB - 1))
      blake2bCompress hMid (lastB ++ List.replicate (128 - lastB.length) 0) L true
  ((hFin.map le8).flatten).take nn

/-- The BLAKE2s G mixing function on the 16-word work vector. -/
def blake2sG (v : List Nat) (a b c d x y : Nat) : List Nat :=
  let va := w32 (v.getD a 0 + v.getD b 0 + x)
  let vd := rotr32 16 (v.getD d 0 ^^^ va)
  let vc := w32 (v.getD c 0 + vd)
  let vb := rotr32 12 (v.getD b 0 ^^^ vc)
  let va2 := w32 (va + vb + y)
  let vd2 := rotr32 8 (vd ^^^ va2)
  let vc2 := w32 (vc + vd2)
  let vb2 := rotr32 7 (vb ^^^ vc2)
  forceList ((((v.set a va2).set b vb2).set c vc2).set d vd2)

/-- One BLAKE2s round. -/
def blake2sRound (m : List Nat) (v : List Nat) (r : Nat) : List Nat :=
  let s := blake2Sigma.getD (r % 10) []
  let g := fun (v : List Nat) (a b c d i j : Nat) =>
    blake2sG v a b c d (m.getD (s.getD i 0) 0) (m.getD (s.getD j 0) 0)
  let v1 := g v 0 4 8 12 0 1
  let v2 := g v1 1 5 9 13 2 3
  let v3 := g v2 2 6 10 14 4 5
  let v4 := g v3 3 7 11 15 6 7
  let v5 := g v4 0 5 10 15 8 9
  let v6 := g v5 1 6 11 12 10 11
  let v7 := g v6 2 7 8 13 12 13
  g v7 3 4 9 14 14 15

/-- BLAKE2s compression (t = byte counter, last = final-block flag). -/
def blake2sCompress (h : List Nat) (block : List Nat) (t : Nat) (last : Bool) : List Nat :=
  let m := leWords4 block
  let v0 := h ++ sha256IV
  let v1 := (v0.set 12 (v0.getD 12 0 ^^^ w32 t)).set 13 (v0.getD 13 0 ^^^ (t / 4294967296))
  let v2 := if last then v1.set 14 (not32 (v1.getD 14 0)) else v1
  let vf := (List.range 10).foldl (blake2sRound m) v2
  forceList ((List.range 8).map (fun i => h.getD i 0 ^^^ vf.getD i 0 ^^^ vf.getD (i + 8) 0))

/-- Unkeyed BLAKE2s-256 digest (32 bytes). -/
def blake2s256 (msg : List Nat) : List Nat :=
  let h0 := sha256IV.set 0 (sha256IV.getD 0 0 ^^^ (0x01010000 ^^^ 32))
  let L := msg.length
  let hFin :=
    if L = 0 then blake2sCompress h0 (List.replicate 64 0) 0 true
    else
      let nB := (L + 63) / 64
      let hMid := (List.range (nB - 1)).foldl
        (fun h i => blake2sCompress h ((msg.drop (64 * i)).take 64) (64 * (i + 1)) false) h0
      let lastB := msg.drop (64 * (nB - 1))
      blake2sCompress hMid (lastB ++ List.replicate (64 - lastB.length) 0) L true
  (hFin.map le4).flatten

/-! ### HMAC (RFC 2104), as in Go `crypto/hmac` -/

/-- A hash function together with its block size, as selected by the
digest registry (`Algorithm.hash` in `config.go`). -/
structure HashDef where
  blockSize : Nat
  digest : List Nat → List Nat

/-- HMAC over the given hash: a key longer than the block size is first
hashed, the key is zero-padded to the block size, and the inner/outer
digests use the 0x36/0x5c pads (Go `crypto/hmac`). -/
def hmacDigest (H : HashDef) (key msg : List Nat) : List Nat :=
  let k0 := if H.blockSize < key.length then H.digest key else key
  let kp := k0 ++ List.replicate (H.blockSize - k0.length) 0
  H.digest ((kp.map (fun b => b ^^^ 0x5c)) ++ H.digest ((kp.map (fun b => b ^^^ 0x36)) ++ msg))

/-! ### Base32 (RFC 4648), as in Go `encoding/base32` StdEncoding -/

/-- The base32 `decodeMap` of Go for the standard alphabet
`ABCDEFGHIJKLMNOPQRSTUVWXYZ234567`. -/
def b32Map (c : Nat) : Option Nat :=
  if 65 ≤ c ∧ c ≤ 90 then some (c - 65)
  else if 50 ≤ c ∧ c ≤ 55 then some (c - 50 + 26)
  else none

/-- Pack a quantum of `dlen` 5-bit values into output bytes, mirroring the
shift network and the per-`dlen` output counts of the Go base32 decoder
(`dlen` is one of 2, 4, 5, 7, 8). -/
def b32Bytes (dbuf : List Nat) (dlen : Nat) : List Nat :=
  let g := fun i => dbuf.getD i 0
  let b0 := (g 0 <<< 3 ||| g 1 >>> 2) % 256
  let b1 := (g 1 <<< 6 ||| g 2 <<< 1 ||| g 3 >>> 4) % 256
  let b2 := (g 3 <<< 4 ||| g 4 >>> 1) % 256
  let b3 := (g 4 <<< 7 ||| g 5 <<< 2 ||| g 6 >>> 3) % 256
  let b4 := (g 6 <<< 5 ||| g 7) % 256
  if dlen = 8 then [b0, b1, b2, b3, b4]
  else if dlen = 7 then [b0, b1, b2, b3]
  else if dlen = 5 then [b0, b1, b2]
  else if dlen = 4 then [b0, b1]
  else [b0]

/-- Read one 8-character quantum, mirroring the Go base32 decode loop:
running out of input mid-quantum is an error (padded encoding); a `=` at
position `j ≥ 2` with fewer than 8 characters left starts the padding
tail, whose next `7 - j` characters must all be `=` and which ends the
decode; `dlen ∈ {3, 6}` is rejected. Returns `(quantum, dlen, rest, end)`. -/
def b32ReadQuantum : Nat → List Nat → List Nat → Option (List Nat × Nat × List Nat × Bool)
  | 0, acc, src => some (acc, 8, src, false)
  | fuel + 1, acc, src =>
    match src with
    | [] => none
    | c :: rest =>
      if c = 61 ∧ 2 ≤ acc.length ∧ rest.length < 8 then
        let j := acc.length
        if rest.length + j < 7 then none
        else if (List.range (7 - j)).all (fun k => rest.getD k 0 = 61) then
          if j = 3 ∨ j = 6 then none
          else some (acc, j, rest.drop (7 - j), true)
        else none
      else
        match b32Map c with
        | none => none
        | some v => b32ReadQuantum fuel (acc ++ [v]) rest

/-- Decode quantums until the input is exhausted or a padded quantum ends
the stream (the Go loop `for len(src) > 0 && !end`). -/
def b32DecodeLoop : Nat → List Nat → Option (List Nat)
  | _, [] => some []
  | 0, _ => none
  | fuel + 1, src =>
    match b32ReadQuantum 8 [] src with
    | none => none
    | some (dbuf, dlen, rest, isEnd) =>
      let out := b32Bytes dbuf dlen
      if isEnd then some out
      else
        match b32DecodeLoop fuel rest with
        | none => none
        | some more => some (out ++ more)

/-- Go `base32.StdEncoding.DecodeString`: strip `\r`/`\n`, then decode;
`none` models the `CorruptInputError` return. -/
def base32DecodeString (s : List Nat) : Option (List Nat) :=
  let t := s.filter (fun c => c ≠ 10 ∧ c ≠ 13)
  b32DecodeLoop t.length t

/-- The standard base32 alphabet, for the encoder below. -/
def b32Alphabet : List Nat := ascii ("ABCDEFGHIJKLMNOPQRSTUVWXYZ234567")

/-- Encode one group of at most 5 bytes into 8 characters with `=`
padding (Go `base32.StdEncoding.EncodeToString`, used by the
tests of the repository to build the RFC 6238 secrets). -/
def b32EncGroup (grp : List Nat) : List Nat :=
  let n := grp.length
  let val := (grp.getD 0 0 <<< 32) ||| (grp.getD 1 0 <<< 24) ||| (grp.getD 2 0 <<< 16) |||
             (grp.getD 3 0 <<< 8) ||| grp.getD 4 0
  let nChars := if n = 1 then 2 else if n = 2 then 4 else if n = 3 then 5 else if n = 4 then 7 else 8
  (List.range 8).map (fun i =>
    if i < nChars then b32Alphabet.getD (val >>> (35 - 5 * i) &&& 31) 0 else 61)

/-- Base32-encode a byte list (standard padded encoding). -/
def base32EncodeString : List Nat → List Nat
  | [] => []
  | a :: b :: c :: d :: e :: rest => b32EncGroup [a, b, c, d, e] ++ base32EncodeString rest
  | l => b32EncGroup l

/-! ### UTF-8 decoding and Unicode digits, as in Go `unicode/utf8`,
`unicode.IsDigit` -/

/-- Decode a byte list into runes as the Go `for range` over a string does:
invalid encodings (stray continuation bytes, overlong forms, surrogates,
truncated sequences) yield U+FFFD and advance one byte. Fuel-driven. -/
def utf8Runes : Nat → List Nat → List Nat
  | 0, _ => []
  | _, [] => []
  | fuel + 1, b :: rest =>
    if b < 128 then b :: utf8Runes fuel rest
    else if 194 ≤ b ∧ b ≤ 223 then
      match rest with
      | b1 :: rest1 =>
        if 128 ≤ b1 ∧ b1 ≤ 191 then (((b - 192) <<< 6) ||| (b1 - 128)) :: utf8Runes fuel rest1
        else 65533 :: utf8Runes fuel rest
      | [] => [65533]
    else if 224 ≤ b ∧ b ≤ 239 then
      match rest with
      | b1 :: b2 :: rest2 =>
        let lo1 := if b = 224 then 160 else 128
        let hi1 := if b = 237 then 159 else 191
        if lo1 ≤ b1 ∧ b1 ≤ hi1 ∧ 128 ≤ b2 ∧ b2 ≤ 191 then
          (((b - 224) <<< 12) ||| ((b1 - 128) <<< 6) ||| (b2 - 128)) :: utf8Runes fuel rest2
        else 65533 :: utf8Runes fuel rest
      | _ => 65533 :: utf8Runes fuel rest
    else if 240 ≤ b ∧ b ≤ 244 then
      match rest with
      | b1 :: b2 :: b3 :: rest3 =>
        let lo1 := if b = 240 then 144 else 128
        let hi1 := if b = 244 then 143 else 191
        if lo1 ≤ b1 ∧ b1 ≤ hi1 ∧ 128 ≤ b2 ∧ b2 ≤ 191 ∧ 128 ≤ b3 ∧ b3 ≤ 191 then
          (((b - 240) <<< 18) ||| ((b1 - 128) <<< 12) ||| ((b2 - 128) <<< 6) ||| (b3 - 128))
            :: utf8Runes fuel rest3
        else 65533 :: utf8Runes fuel rest
      | _ => 65533 :: utf8Runes fuel rest
    else 65533 :: utf8Runes fuel rest

/-- Modelled from the spec: the Unicode `Nd` (decimal digit) ranges above
Latin-1 consulted by `unicode.IsDigit` of the standard library (library
code, not under `src/`); the validator of the spec accepts any non-decimal-digit
character by this category. Pairs are inclusive `(lo, hi)` ranges. -/
def ndRanges : List (Nat × Nat) :=
  [(0x660, 0x669), (0x6F0, 0x6F9), (0x7C0, 0x7C9), (0x966, 0x96F), (0x9E6, 0x9EF),
   (0xA66, 0xA6F), (0xAE6, 0xAEF), (0xB66, 0xB6F), (0xBE6, 0xBEF), (0xC66, 0xC6F),
   (0xCE6, 0xCEF), (0xD66, 0xD6F), (0xDE6, 0xDEF), (0xE50, 0xE59), (0xED0, 0xED9),
   (0xF20, 0xF29), (0x1040, 0x1049), (0x1090, 0x1099), (0x17E0, 0x17E9), (0x1810, 0x1819),
   (0x1946, 0x194F), (0x19D0, 0x19D9), (0x1A80, 0x1A89), (0x1A90, 0x1A99), (0x1B50, 0x1B59),
   (0x1BB0, 0x1BB9), (0x1C40, 0x1C49), (0x1C50, 0x1C59), (0xA620, 0xA629), (0xA8D0, 0xA8D9),
   (0xA900, 0xA909), (0xA9D0, 0xA9D9), (0xA9F0, 0xA9F9), (0xAA50, 0xAA59), (0xABF0, 0xABF9),
   (0xFF10, 0xFF19), (0x104A0, 0x104A9), (0x10D30, 0x10D39), (0x11066, 0x1106F),
   (0x110F0, 0x110F9), (0x11136, 0x1113F), (0x111D0, 0x111D9), (0x112F0, 0x112F9),
   (0x11450, 0x11459), (0x114D0, 0x114D9), (0x11650, 0x11659), (0x116C0, 0x116C9),
   (0x11730, 0x11739), (0x118E0, 0x118E9), (0x11950, 0x11959), (0x11C50, 0x11C59),
   (0x11D50, 0x11D59), (0x11DA0, 0x11DA9), (0x16A60, 0x16A69), (0x16AC0, 0x16AC9),
   (0x16B50, 0x16B59), (0x1D7CE, 0x1D7FF), (0x1E140, 0x1E149), (0x1E2F0, 0x1E2F9),
   (0x1E950, 0x1E959), (0x1FBF0, 0x1FBF9)]

/-- Go `unicode.IsDigit`: Latin-1 fast path (only ASCII `0`-`9`), then the
`Nd` table beyond Latin-1. -/
def isDigitRune (r : Nat) : Bool :=
  if r ≤ 255 then 48 ≤ r && r ≤ 57
  else ndRanges.any (fun p => p.1 ≤ r && r ≤ p.2)

/-! ### The repository itself: `config.go` and `totp.go` -/

/-- The constants of the Go named integer type `Algorithm` of `config.go`
(iota 0..13); the type itself is a transparent `int` alias, modelled as
`Int`. -/
def AlgorithmSHA1 : Int := 0

def AlgorithmSHA224 : Int := 1

def AlgorithmSHA256 : Int := 2

def AlgorithmSHA384 : Int := 3

def AlgorithmSHA512 : Int := 4

def AlgorithmSHA3x224 : Int := 5

def AlgorithmSHA3x256 : Int := 6

def AlgorithmSHA3x384 : Int := 7

def AlgorithmSHA3x512 : Int := 8

def AlgorithmBLAKE2S256 : Int := 9

def AlgorithmBLAKE2B256 : Int := 10

def AlgorithmBLAKE2B384 : Int := 11

def AlgorithmBLAKE2B512 : Int := 12

def AlgorithmMD5 : Int := 13

/-- The constants of the Go named integer type `Digits` of `config.go`,
modelled as `Int`. -/
def DigitsFour : Int := 4

def DigitsFive : Int := 5

def DigitsSix : Int := 6

def DigitsEight : Int := 8

/-- Go struct `Config` (`Secret` is the base32 text as Go string bytes). -/
structure Config where
  algorithm : Int
  digits : Int
  period : Int
  secret : List Nat
  skew : Int
deriving Repr, DecidableEq

/-- Go value `ConfigDefault` of `config.go` (zero-valued `Secret`). -/
def ConfigDefault : Config :=
  { algorithm := AlgorithmSHA1, digits := DigitsSix, period := 30, secret := [], skew := 1 }

/-- Go method `Algorithm.hash` of `config.go`: the digest registry, mapping each
identifier to the hash constructor Go would pass to `hmac.New` (paired
here with the block size of the hash, which `crypto/hmac` reads from the
instance). The `default` case of the Go `switch` returns SHA-1. -/
def Algorithm.hash (a : Int) : HashDef :=
  if a = 0 then ⟨64, sha1⟩
  else if a = 1 then ⟨64, sha224⟩
  else if a = 2 then ⟨64, sha256⟩
  else if a = 3 then ⟨128, sha384⟩
  else if a = 4 then ⟨128, sha512⟩
  else if a = 5 then ⟨144, sha3x224⟩
  else if a = 6 then ⟨136, sha3x256⟩
  else if a = 7 then ⟨104, sha3x384⟩
  else if a = 8 then ⟨72, sha3x512⟩
  else if a = 9 then ⟨64, blake2s256⟩
  else if a = 10 then ⟨128, blake2b 32⟩
  else if a = 11 then ⟨128, blake2b 48⟩
  else if a = 12 then ⟨128, blake2b 64⟩
  else if a = 13 then ⟨64, md5⟩
  else ⟨64, sha1⟩

/-- Go function `configDefault` of `config.go`: zero or one provided record (Go
variadic), out-of-domain fields replaced by defaults. -/
def configDefault (config : List Config) : Config :=
  match config with
  | [] => ConfigDefault
  | cfg :: _ =>
    let cfg := if cfg.algorithm < AlgorithmSHA1 ∨ AlgorithmMD5 < cfg.algorithm then
      { cfg with algorithm := ConfigDefault.algorithm } else cfg
    let cfg := if cfg.digits < DigitsFour ∨ DigitsEight < cfg.digits then
      { cfg with digits := ConfigDefault.digits } else cfg
    let cfg := if cfg.period ≤ 0 then { cfg with period := ConfigDefault.period } else cfg
    let cfg := if cfg.skew < 0 then { cfg with skew := ConfigDefault.skew } else cfg
    cfg

/-- Go struct `TOTP` (the engine). The two `sync.Pool`s only recycle
scratch buffers and HMAC state between calls and carry no
observable state (the HMAC is `Reset` before use), so they are not
part of the model. -/
structure TOTP where
  cfg : Config
  divisor : Int
  decodedSecret : List Nat
deriving Repr, DecidableEq

/-- Go function `New` of `totp.go`: resolve the configuration, base32-decode the
secret (`none` models the `panic` on a decode error), and precompute
`divisor = 10^Digits` by the multiplication loop (which runs zero times
for a negative count). -/
def New (config : List Config) : Option TOTP :=
  let cfg := configDefault config
  (base32DecodeString cfg.secret).map (fun decodedSecret =>
    { cfg := cfg, divisor := 10 ^ cfg.digits.toNat, decodedSecret := decodedSecret })

/-- Go function `formatCode` of `totp.go`: the fill loop `buf[i] = '0' + code%10`
for `i = digits-1 .. 0`, read off as the produced byte list. -/
def formatCode : Nat → Nat → List Nat
  | _, 0 => []
  | code, d + 1 => formatCode (code / 10) d ++ [48 + code % 10]

/-- Go method `GenerateForTime` of `totp.go` for an instant of `t` Unix seconds.
the Go `t.Unix() / o.cfg.Period` truncates toward zero (`Int.tdiv`); the
big-endian time bytes use the Go arithmetic shift (`Int.fdiv` by a power
of two) and `byte` truncation (`Int.emod _ 256`). `none` models the
panics: HMAC digest shorter than `offset+4` (dynamic truncation index
out of range), `divisor = 0`, or `Digits` outside `0..8` (out-of-range
writes in the 8-byte buffer of `formatCode`); none of the last two is
reachable from `New`. -/
def GenerateForTime (o : TOTP) (t : Int) : Option (List Nat) :=
  let timeStep := Int.tdiv t o.cfg.period
  let timeBytes := (List.range 8).map (fun j =>
    ((Int.fdiv timeStep ((2 : Int) ^ (8 * (7 - j)))).emod 256).toNat)
  let hmacResult := hmacDigest (Algorithm.hash o.cfg.algorithm) o.decodedSecret timeBytes
  match hmacResult.getLast? with
  | none => none
  | some lastByte =>
    let offset := lastByte &&& 15
    if offset + 3 < hmacResult.length then
      let binaryCode := ((hmacResult.getD offset 0 &&& 127) <<< 24) |||
        ((hmacResult.getD (offset + 1) 0 &&& 255) <<< 16) |||
        ((hmacResult.getD (offset + 2) 0 &&& 255) <<< 8) |||
        (hmacResult.getD (offset + 3) 0 &&& 255)
      if o.divisor = 0 then none
      else
        let totpCode := Int.tmod (binaryCode : Int) o.divisor
        if 0 ≤ o.cfg.digits ∧ o.cfg.digits ≤ 8 then
          some (formatCode totpCode.toNat o.cfg.digits.toNat)
        else none
    else none

/-- Go function `isValidInteger` of `totp.go`: every rune of the string (Go `range`
decoding) is a decimal digit. -/
def isValidInteger (s : List Nat) : Bool :=
  (utf8Runes s.length s).all isDigitRune

/-- Go function `subtle.ConstantTimeCompare`: equal lengths and a zero OR-fold of the
byte XORs. -/
def constantTimeCompare (x y : List Nat) : Bool :=
  if x.length ≠ y.length then false
  else ((x.zip y).foldl (fun v p => v ||| (p.1 ^^^ p.2)) 0) == 0

/-- The skew window scan of `ValidateForTime`: for each step in order,
generate the expected code (a generation panic propagates as `none`) and
return on the first constant-time match. -/
def scanWindows (o : TOTP) (totp : List Nat) : List Int → Option Bool
  | [] => some false
  | step :: rest =>
    match GenerateForTime o (step * o.cfg.period) with
    | none => none
    | some expected =>
      if constantTimeCompare totp expected then some true
      else scanWindows o totp rest

/-- The scanned steps `baseStep - skew .. baseStep + skew` (the Go loop
`for i := -skew; i <= skew; i++` runs zero times for `skew < 0`). -/
def windowSteps (baseStep skew : Int) : List Int :=
  if skew < 0 then []
  else (List.range (2 * skew.toNat + 1)).map (fun k : Nat => baseStep - skew + (k : Int))

/-- Go method `ValidateForTime` of `totp.go`. The result is `(valid, hasError)`:
`(false, true)` is the `"invalid TOTP format"` early return (length in
bytes compared to `Digits`, then `isValidInteger`), `(b, false)` the
normal loop exit, and `none` a propagated generation panic. -/
def ValidateForTime (o : TOTP) (totp : List Nat) (t : Int) : Option (Bool × Bool) :=
  if (totp.length : Int) ≠ o.cfg.digits ∨ isValidInteger totp = false then some (false, true)
  else
    let baseStep := Int.tdiv t o.cfg.period
    (scanWindows o totp (windowSteps baseStep o.cfg.skew)).map (fun b => (b, false))

/-! ### Helper lemmas -/

/-- A bitwise OR of naturals is zero exactly when both sides are. -/
theorem lor_eq_zero_iff (a b : Nat) : a ||| b = 0 ↔ a = 0 ∧ b = 0 := by
  constructor
  · intro h
    have ha : ∀ i, a.testBit i = false := by
      intro i
      have := congrArg (fun x => Nat.testBit x i) h
      simp [Nat.testBit_or] at this
      exact this.1
    have hb : ∀ i, b.testBit i = false := by
      intro i
      have := congrArg (fun x => Nat.testBit x i) h
      simp [Nat.testBit_or] at this
      exact this.2
    exact ⟨Nat.eq_of_testBit_eq fun i => by simp [ha i],
           Nat.eq_of_testBit_eq fun i => by simp [hb i]⟩
  · rintro ⟨rfl, rfl⟩; rfl

/-- The OR-fold of pairwise XORs is zero exactly when the accumulator is
zero and every pair agrees. -/
theorem foldl_lor_xor_eq_zero (l : List (Nat × Nat)) (a : Nat) :
    l.foldl (fun v p => v ||| (p.1 ^^^ p.2)) a = 0 ↔ a = 0 ∧ ∀ p ∈ l, p.1 = p.2 := by
  induction l generalizing a with
  | nil => simp
  | cons p rest ih =>
    simp only [List.foldl_cons, ih, lor_eq_zero_iff, Nat.xor_eq_zero, List.mem_cons]
    constructor
    · rintro ⟨⟨h1, h2⟩, h3⟩
      exact ⟨h1, fun q hq => hq.elim (fun e => e ▸ h2) (h3 q)⟩
    · rintro ⟨h1, h2⟩
      exact ⟨⟨h1, h2 p (Or.inl rfl)⟩, fun q hq => h2 q (Or.inr hq)⟩

/-- Equal-length lists agreeing on every zipped pair are equal. -/
theorem zip_pairs_eq_iff (x : List Nat) : ∀ y : List Nat, x.length = y.length →
    ((∀ p ∈ x.zip y, p.1 = p.2) ↔ x = y) := by
  induction x with
  | nil => intro y hlen; cases y <;> simp_all
  | cons a xs ih =>
    intro y hlen
    cases y with
    | nil => simp_all
    | cons b ys =>
      have hl : xs.length = ys.length := by simpa using hlen
      simp only [List.zip_cons_cons, List.mem_cons, List.cons.injEq]
      constructor
      · intro h
        exact ⟨h (a, b) (Or.inl rfl), (ih ys hl).mp fun p hp => h p (Or.inr hp)⟩
      · rintro ⟨rfl, rfl⟩
        intro p hp
        rcases hp with rfl | hp
        · rfl
        · exact (ih _ hl).mpr rfl p hp

/-- Constant-time comparison decides list equality. -/
theorem constantTimeCompare_eq_true_iff (x y : List Nat) :
    constantTimeCompare x y = true ↔ x = y := by
  unfold constantTimeCompare
  split
  · rename_i h
    constructor
    · intro hf; exact absurd hf (by simp)
    · intro he; exact absurd (congrArg List.length he) h
  · rename_i h
    push_neg at h
    rw [beq_iff_eq, foldl_lor_xor_eq_zero]
    constructor
    · rintro ⟨_, h2⟩; exact (zip_pairs_eq_iff x y h).mp h2
    · intro he; exact ⟨rfl, (zip_pairs_eq_iff x y h).mpr he⟩

/-- The fill loop of `formatCode` produces exactly `digits` bytes. -/
theorem formatCode_length (code d : Nat) : (formatCode code d).length = d := by
  induction d generalizing code with
  | zero => rfl
  | succ n ih => simp [formatCode, ih]

/-- Every byte `formatCode` writes is an ASCII decimal digit. -/
theorem formatCode_all_digits (code d : Nat) :
    (formatCode code d).all (fun b => 48 ≤ b && b ≤ 57) = true := by
  induction d generalizing code with
  | zero => rfl
  | succ n ih =>
    simp only [formatCode, List.all_append, ih, Bool.true_and, List.all_cons, List.all_nil,
      Bool.and_true, decide_eq_true_eq, Bool.and_eq_true]
    omega

/-- Field-wise description of the resolver on a provided record. -/
theorem configDefault_cons (cfg : Config) (rest : List Config) :
    configDefault (cfg :: rest) =
      { algorithm := if cfg.algorithm < 0 ∨ 13 < cfg.algorithm then 0 else cfg.algorithm
        digits := if cfg.digits < 4 ∨ 8 < cfg.digits then 6 else cfg.digits
        period := if cfg.period ≤ 0 then 30 else cfg.period
        secret := cfg.secret
        skew := if cfg.skew < 0 then 1 else cfg.skew } := by
  unfold configDefault
  dsimp only [AlgorithmSHA1, AlgorithmMD5, DigitsFour, DigitsEight, ConfigDefault]
  split <;> split <;> split <;> split <;> simp_all <;> rfl

/-- The resolved configuration always satisfies the documented domains. -/
theorem configDefault_bounds (cfgs : List Config) :
    0 < (configDefault cfgs).period ∧ 0 ≤ (configDefault cfgs).skew ∧
    4 ≤ (configDefault cfgs).digits ∧ (configDefault cfgs).digits ≤ 8 ∧
    0 ≤ (configDefault cfgs).algorithm ∧ (configDefault cfgs).algorithm ≤ 13 := by
  cases cfgs with
  | nil => refine ⟨by decide, by decide, by decide, by decide, by decide, by decide⟩
  | cons cfg rest =>
    rw [configDefault_cons]
    refine ⟨?_, ?_, ?_, ?_, ?_, ?_⟩ <;> dsimp only <;> split <;> omega

/-- Inversion for a successful engine construction. -/
theorem New_some_inv (cfgs : List Config) (e : TOTP) (h : New cfgs = some e) :
    e.cfg = configDefault cfgs ∧ e.divisor = 10 ^ e.cfg.digits.toNat ∧
    base32DecodeString e.cfg.secret = some e.decodedSecret := by
  unfold New at h
  dsimp only at h
  rcases Option.map_eq_some'.mp h with ⟨k, hd, he⟩
  cases he
  exact ⟨rfl, rfl, hd⟩

/-- A successful generation result is a `formatCode` rendering with the
configured digit count. -/
theorem generate_some_shape (o : TOTP) (t : Int) (code : List Nat)
    (h : GenerateForTime o t = some code) :
    (∃ m, code = formatCode m o.cfg.digits.toNat) ∧ 0 ≤ o.cfg.digits ∧ o.cfg.digits ≤ 8 := by
  unfold GenerateForTime at h
  dsimp only at h
  split at h
  · cases h
  · split at h
    · split at h
      · cases h
      · split at h
        · rename_i hdig
          cases h
          exact ⟨⟨_, rfl⟩, hdig.1, hdig.2⟩
        · cases h
    · cases h

/-- When the candidate passes the format check, validation is the window
scan. -/
theorem validate_pass_format (o : TOTP) (c : List Nat) (t : Int)
    (hlen : (c.length : Int) = o.cfg.digits) (hdig : isValidInteger c = true) :
    ValidateForTime o c t =
      (scanWindows o c (windowSteps (Int.tdiv t o.cfg.period) o.cfg.skew)).map
        (fun b => (b, false)) := by
  unfold ValidateForTime
  rw [if_neg]
  push_neg
  exact ⟨hlen, by simp [hdig]⟩

/-- Membership in the scanned step window. -/
theorem mem_windowSteps_iff (base skew s : Int) (h : 0 ≤ skew) :
    s ∈ windowSteps base skew ↔ base - skew ≤ s ∧ s ≤ base + skew := by
  unfold windowSteps
  rw [if_neg (by omega)]
  constructor
  · intro hmem
    obtain ⟨k, hk, hs⟩ := List.mem_map.mp hmem
    rw [List.mem_range] at hk
    omega
  · intro hb
    exact List.mem_map.mpr ⟨(s - (base - skew)).toNat, List.mem_range.mpr (by omega), by omega⟩

/-- A non-panicking window scan succeeds exactly when some scanned step
generates the candidate. -/
theorem scanWindows_some_true_iff (o : TOTP) (c : List Nat) (steps : List Int)
    (h : scanWindows o c steps ≠ none) :
    (scanWindows o c steps = some true ↔
      ∃ s ∈ steps, GenerateForTime o (s * o.cfg.period) = some c) := by
  induction steps with
  | nil =>
    simp only [scanWindows, List.mem_nil_iff]
    constructor
    · intro hf; cases hf
    · rintro ⟨s, hs, _⟩; cases hs
  | cons s rest ih =>
    cases hg : GenerateForTime o (s * o.cfg.period) with
    | none =>
      have hnone : scanWindows o c (s :: rest) = none := by simp only [scanWindows, hg]
      exact absurd hnone h
    | some expected =>
      have hstep : scanWindows o c (s :: rest) =
          if constantTimeCompare c expected = true then some true
          else scanWindows o c rest := by
        simp only [scanWindows, hg]
      rw [hstep] at h ⊢
      by_cases hc : constantTimeCompare c expected = true
      · rw [if_pos hc]
        refine iff_of_true rfl ⟨s, List.mem_cons_self s rest, ?_⟩
        rw [(constantTimeCompare_eq_true_iff c expected).mp hc]
        exact hg
      · rw [if_neg hc] at h ⊢
        rw [ih h]
        constructor
        · rintro ⟨u, hu, hgen⟩
          exact ⟨u, List.mem_cons_of_mem s hu, hgen⟩
        · rintro ⟨u, hu, hgen⟩
          rcases List.mem_cons.mp hu with rfl | hu
          · exfalso
            rw [hg] at hgen
            cases hgen
            exact hc ((constantTimeCompare_eq_true_iff c c).mpr rfl)
          · exact ⟨u, hu, hgen⟩

/-- No scanned window can match a candidate containing byte 217 (generated
codes consist of ASCII digit bytes only), so a completed scan is negative. -/
theorem scan_no_high_byte_match (o : TOTP) (c : List Nat) (hbyte : 217 ∈ c) :
    ∀ steps b, scanWindows o c steps = some b → b = false := by
  intro steps
  induction steps with
  | nil => intro b h; cases h; rfl
  | cons s rest ih =>
    intro b h
    cases hg : GenerateForTime o (s * o.cfg.period) with
    | none =>
      have hn : scanWindows o c (s :: rest) = none := by simp only [scanWindows, hg]
      rw [hn] at h; cases h
    | some expected =>
      have hstep : scanWindows o c (s :: rest) =
          if constantTimeCompare c expected = true then some true
          else scanWindows o c rest := by
        simp only [scanWindows, hg]
      rw [hstep] at h
      by_cases hc : constantTimeCompare c expected = true
      · exfalso
        have hce := (constantTimeCompare_eq_true_iff c expected).mp hc
        obtain ⟨⟨m, hm⟩, _, _⟩ := generate_some_shape o _ expected hg
        have hall := formatCode_all_digits m o.cfg.digits.toNat
        rw [← hm] at hall
        have h217 := List.all_eq_true.mp hall 217 (hce ▸ hbyte)
        exact absurd h217 (by decide)
      · rw [if_neg hc] at h
        exact ih b h

/-! ### Concrete inputs used by the claims -/

/-- Base32 text of the 20-byte RFC 6238 ASCII secret, built exactly as the
tests of the repository build it. -/
def secretSha1 : List Nat := base32EncodeString (ascii ("12345678901234567890"))

/-- Base32 text of the 32-byte RFC 6238 ASCII secret. -/
def secretSha256 : List Nat := base32EncodeString (ascii ("12345678901234567890123456789012"))

/-- Base32 text of the 64-byte RFC 6238 ASCII secret. -/
def secretSha512 : List Nat :=
  base32EncodeString (ascii ("1234567890123456789012345678901234567890123456789012345678901234"))

/-- The RFC-vector configuration of the repository tests: 8 digits,
period 30, skew 0. -/
def cfgRFC (alg : Int) (sec : List Nat) : Config :=
  { algorithm := alg, digits := DigitsEight, period := 30, secret := sec, skew := 0 }

/-- An MD5 configuration (6 digits, period 30, skew 1). -/
def cfgMD5 : Config :=
  { algorithm := AlgorithmMD5, digits := DigitsSix, period := 30, secret := secretSha1, skew := 1 }

/-- The RFC SHA-1 configuration with skew 1, for the skew-tolerance claims. -/
def cfgSkew1 : Config := { cfgRFC AlgorithmSHA1 secretSha1 with skew := 1 }

/-- The value `New` produces from `cfgRFC AlgorithmSHA1 secretSha1`. -/
def engineRFC1 : TOTP :=
  { cfg := configDefault [cfgRFC AlgorithmSHA1 secretSha1], divisor := 100000000,
    decodedSecret := ascii ("12345678901234567890") }

/-- The value `New` produces from `cfgRFC AlgorithmSHA256 secretSha256`. -/
def engineRFC256 : TOTP :=
  { cfg := configDefault [cfgRFC AlgorithmSHA256 secretSha256], divisor := 100000000,
    decodedSecret := ascii ("12345678901234567890123456789012") }

/-- The value `New` produces from `cfgRFC AlgorithmSHA512 secretSha512`. -/
def engineRFC512 : TOTP :=
  { cfg := configDefault [cfgRFC AlgorithmSHA512 secretSha512], divisor := 100000000,
    decodedSecret := ascii ("1234567890123456789012345678901234567890123456789012345678901234") }

/-- The value `New` produces from `cfgSkew1`. -/
def engineSkew1 : TOTP :=
  { cfg := configDefault [cfgSkew1], divisor := 100000000,
    decodedSecret := ascii ("12345678901234567890") }

/-- The value `New` produces from `cfgMD5`. -/
def engineMD5 : TOTP :=
  { cfg := configDefault [cfgMD5], divisor := 1000000,
    decodedSecret := ascii ("12345678901234567890") }

/-- A 6-digit SHA-1 configuration with the RFC secret and skew 0. -/
def cfgSix : Config :=
  { algorithm := AlgorithmSHA1, digits := DigitsSix, period := 30, secret := secretSha1,
    skew := 0 }

/-- The value `New` produces from `cfgSix`. -/
def engineSix : TOTP :=
  { cfg := configDefault [cfgSix], divisor := 1000000,
    decodedSecret := ascii ("12345678901234567890") }

/-- A configuration whose Digits field is 7. -/
def cfgDigits7 : Config := { ConfigDefault with digits := 7 }

/-- Six bytes of UTF-8: three ARABIC-INDIC DIGIT ZERO characters
(U+0660, encoded D9 A0). -/
def candArabic : List Nat := [217, 160, 217, 160, 217, 160]

/-! ### Scan-assembly lemmas -/

/-- A window whose generation panics aborts the scan. -/
theorem scan_step_panic (o : TOTP) (c : List Nat) (s : Int) (rest : List Int)
    (hg : GenerateForTime o (s * o.cfg.period) = none) :
    scanWindows o c (s :: rest) = none := by
  simp only [scanWindows, hg]

/-- A window whose expected code matches ends the scan positively. -/
theorem scan_step_hit (o : TOTP) (c : List Nat) (s : Int) (rest : List Int) (expected : List Nat)
    (hg : GenerateForTime o (s * o.cfg.period) = some expected)
    (heq : constantTimeCompare c expected = true) :
    scanWindows o c (s :: rest) = some true := by
  simp only [scanWindows, hg, heq, if_true]

/-- A window whose expected code differs passes to the remaining windows. -/
theorem scan_step_miss (o : TOTP) (c : List Nat) (s : Int) (rest : List Int) (expected : List Nat)
    (hg : GenerateForTime o (s * o.cfg.period) = some expected)
    (hne : constantTimeCompare c expected = false) :
    scanWindows o c (s :: rest) = scanWindows o c rest := by
  simp only [scanWindows, hg, hne]
  rfl

/-! ### Concrete evaluations (one kernel evaluation per distinct digest) -/

/-- Constructing the SHA-1 RFC engine. -/
theorem eval_new_rfc1 : New [cfgRFC AlgorithmSHA1 secretSha1] = some engineRFC1 := rfl

/-- Constructing the SHA-256 RFC engine. -/
theorem eval_new_rfc256 : New [cfgRFC AlgorithmSHA256 secretSha256] = some engineRFC256 := rfl

/-- Constructing the SHA-512 RFC engine. -/
theorem eval_new_rfc512 : New [cfgRFC AlgorithmSHA512 secretSha512] = some engineRFC512 := rfl

/-- Constructing the skew-1 SHA-1 engine. -/
theorem eval_new_skew1 : New [cfgSkew1] = some engineSkew1 := rfl

/-- Constructing the MD5 engine. -/
theorem eval_new_md5 : New [cfgMD5] = some engineMD5 := rfl

/-- Constructing the 6-digit skew-0 SHA-1 engine. -/
theorem eval_new_six : New [cfgSix] = some engineSix := rfl

/-- SHA-1 RFC vector at time 59. -/
theorem eval_gen_sha1_59 : GenerateForTime engineRFC1 59 = some (ascii ("94287082")) := rfl

/-- SHA-1 RFC vector at time 1111111109. -/
theorem eval_gen_sha1_b :
    GenerateForTime engineRFC1 1111111109 = some (ascii ("07081804")) := rfl

/-- SHA-1 RFC vector at time 2000000000. -/
theorem eval_gen_sha1_c :
    GenerateForTime engineRFC1 2000000000 = some (ascii ("69279037")) := rfl

/-- SHA-256 RFC vector at time 59. -/
theorem eval_gen_sha256_59 : GenerateForTime engineRFC256 59 = some (ascii ("46119246")) := rfl

/-- SHA-512 RFC vector at time 59. -/
theorem eval_gen_sha512_59 : GenerateForTime engineRFC512 59 = some (ascii ("90693936")) := rfl

/-- The skew-1 engine at time step -1 (instant -30). -/
theorem eval_gen_skew1_m30 : GenerateForTime engineSkew1 (-30) = some (ascii ("63094451")) := rfl

/-- The skew-1 engine at time step 0 (instant 0). -/
theorem eval_gen_skew1_0 : GenerateForTime engineSkew1 0 = some (ascii ("84755224")) := rfl

/-- The skew-1 engine at time step 1 (instant 30): the RFC code of time 59. -/
theorem eval_gen_skew1_30 : GenerateForTime engineSkew1 30 = some (ascii ("94287082")) := rfl

/-- The skew-1 engine at time step 2 (instant 60). -/
theorem eval_gen_skew1_60 : GenerateForTime engineSkew1 60 = some (ascii ("37359152")) := rfl

/-- The skew-1 engine at time step 3 (instant 90). -/
theorem eval_gen_skew1_90 : GenerateForTime engineSkew1 90 = some (ascii ("26969429")) := rfl

/-- The skew-1 engine at time step 4 (instant 120). -/
theorem eval_gen_skew1_120 : GenerateForTime engineSkew1 120 = some (ascii ("40338314")) := rfl

/-- The 6-digit engine at time step 1 (instant 30). -/
theorem eval_gen_six_30 : GenerateForTime engineSix 30 = some (ascii ("287082")) := rfl

/-- The MD5 engine panics at instant 0 (dynamic truncation out of range). -/
theorem eval_gen_md5_0 : GenerateForTime engineMD5 0 = none := rfl

/-- The MD5 engine generates a code at instant 30 (time step 1). -/
theorem eval_gen_md5_30 : GenerateForTime engineMD5 30 = some (ascii ("532013")) := rfl

/-- The skew-1 engine accepts the time-59 code at time 29 (window at
offset +1 matches). -/
theorem eval_val_29 :
    ValidateForTime engineSkew1 (ascii ("94287082")) 29 = some (true, false) := by
  rw [validate_pass_format engineSkew1 (ascii ("94287082")) 29 (by decide) rfl]
  rw [show windowSteps (Int.tdiv 29 engineSkew1.cfg.period) engineSkew1.cfg.skew = [-1, 0, 1]
    from by decide]
  rw [scan_step_miss engineSkew1 (ascii ("94287082")) (-1) [0, 1] (ascii ("63094451"))
        (by rw [show (-1 : Int) * engineSkew1.cfg.period = -30 from by decide]
            exact eval_gen_skew1_m30)
        (by decide),
      scan_step_miss engineSkew1 (ascii ("94287082")) 0 [1] (ascii ("84755224"))
        (by rw [show (0 : Int) * engineSkew1.cfg.period = 0 from by decide]
            exact eval_gen_skew1_0)
        (by decide),
      scan_step_hit engineSkew1 (ascii ("94287082")) 1 [] (ascii ("94287082"))
        (by rw [show (1 : Int) * engineSkew1.cfg.period = 30 from by decide]
            exact eval_gen_skew1_30)
        (by decide)]
  rfl

/-- The skew-1 engine accepts the time-59 code at time 59 (window at
offset 0 matches). -/
theorem eval_val_59 :
    ValidateForTime engineSkew1 (ascii ("94287082")) 59 = some (true, false) := by
  rw [validate_pass_format engineSkew1 (ascii ("94287082")) 59 (by decide) rfl]
  rw [show windowSteps (Int.tdiv 59 engineSkew1.cfg.period) engineSkew1.cfg.skew = [0, 1, 2]
    from by decide]
  rw [scan_step_miss engineSkew1 (ascii ("94287082")) 0 [1, 2] (ascii ("84755224"))
        (by rw [show (0 : Int) * engineSkew1.cfg.period = 0 from by decide]
            exact eval_gen_skew1_0)
        (by decide),
      scan_step_hit engineSkew1 (ascii ("94287082")) 1 [2] (ascii ("94287082"))
        (by rw [show (1 : Int) * engineSkew1.cfg.period = 30 from by decide]
            exact eval_gen_skew1_30)
        (by decide)]
  rfl

/-- The skew-1 engine accepts the time-59 code at time 61 (window at
offset -1 matches). -/
theorem eval_val_61 :
    ValidateForTime engineSkew1 (ascii ("94287082")) 61 = some (true, false) := by
  rw [validate_pass_format engineSkew1 (ascii ("94287082")) 61 (by decide) rfl]
  rw [show windowSteps (Int.tdiv 61 engineSkew1.cfg.period) engineSkew1.cfg.skew = [1, 2, 3]
    from by decide]
  rw [scan_step_hit engineSkew1 (ascii ("94287082")) 1 [2, 3] (ascii ("94287082"))
        (by rw [show (1 : Int) * engineSkew1.cfg.period = 30 from by decide]
            exact eval_gen_skew1_30)
        (by decide)]
  rfl

/-- The skew-1 engine rejects the time-59 code at time 91 (steps 2..4 all
differ). -/
theorem eval_val_91 :
    ValidateForTime engineSkew1 (ascii ("94287082")) 91 = some (false, false) := by
  rw [validate_pass_format engineSkew1 (ascii ("94287082")) 91 (by decide) rfl]
  rw [show windowSteps (Int.tdiv 91 engineSkew1.cfg.period) engineSkew1.cfg.skew = [2, 3, 4]
    from by decide]
  rw [scan_step_miss engineSkew1 (ascii ("94287082")) 2 [3, 4] (ascii ("37359152"))
        (by rw [show (2 : Int) * engineSkew1.cfg.period = 60 from by decide]
            exact eval_gen_skew1_60)
        (by decide),
      scan_step_miss engineSkew1 (ascii ("94287082")) 3 [4] (ascii ("26969429"))
        (by rw [show (3 : Int) * engineSkew1.cfg.period = 90 from by decide]
            exact eval_gen_skew1_90)
        (by decide),
      scan_step_miss engineSkew1 (ascii ("94287082")) 4 [] (ascii ("40338314"))
        (by rw [show (4 : Int) * engineSkew1.cfg.period = 120 from by decide]
            exact eval_gen_skew1_120)
        (by decide)]
  rfl

/-- The MD5 engine panics validating at instant 30: window step 0 aborts
before the matching step 1 is scanned. -/
theorem eval_val_md5_30 : ValidateForTime engineMD5 (ascii ("532013")) 30 = none := by
  rw [validate_pass_format engineMD5 (ascii ("532013")) 30 (by decide) rfl]
  rw [show windowSteps (Int.tdiv 30 engineMD5.cfg.period) engineMD5.cfg.skew = [0, 1, 2]
    from by decide]
  rw [scan_step_panic engineMD5 (ascii ("532013")) 0 [1, 2]
        (by rw [show (0 : Int) * engineMD5.cfg.period = 0 from by decide]
            exact eval_gen_md5_0)]
  rfl

/-- The 6-digit skew-0 engine returns the plain negative for the
Arabic-Indic candidate at time 59. -/
theorem eval_val_six_arabic :
    ValidateForTime engineSix candArabic 59 = some (false, false) := by
  rw [validate_pass_format engineSix candArabic 59 (by decide) rfl]
  rw [show windowSteps (Int.tdiv 59 engineSix.cfg.period) engineSix.cfg.skew = [1]
    from by decide]
  rw [scan_step_miss engineSix candArabic 1 [] (ascii ("287082"))
        (by rw [show (1 : Int) * engineSix.cfg.period = 30 from by decide]
            exact eval_gen_six_30)
        (by decide)]
  rfl

/-! ### The claims -/

/-- C1: the claim says dynamic truncation stays in bounds for every
supported digest algorithm, MD5 included, so `GenerateForTime` cannot
fail. This is wrong for MD5: its HMAC digest has 16 bytes while the
truncation offset (low nibble of the last byte) can reach 15, making
`digest[offset+3]` an out-of-range index. Concretely, the MD5 engine
below constructs successfully, and at Unix time 0 the offset is at least
13, so generation hits the out-of-range panic, modelled as `none`. -/
theorem C1_md5_truncation_out_of_range :
    (New [cfgMD5]).isSome = true ∧
    (New [cfgMD5]).bind (fun e => GenerateForTime e 0) = none := by
  refine ⟨rfl, ?_⟩
  rw [eval_new_md5, Option.some_bind]
  exact eval_gen_md5_0

/-- C2 counterexample: Digits = 7 lies outside {4,5,6,8}, yet the resolver
keeps it instead of substituting the default 6. -/
theorem C2_digits_seven_kept :
    (configDefault [cfgDigits7]).digits = 7 ∧ (configDefault [cfgDigits7]).digits ≠ 6 :=
  ⟨rfl, by decide⟩

/-- C2 amended: the resolver substitutes the default of 6 digits exactly
when the Digits field is below 4 or above 8; any value in 4..8 (such as
7) is kept unchanged. -/
theorem C2_amended_digits_default (cfg : Config) (h : cfg.digits < 4 ∨ 8 < cfg.digits) :
    (configDefault [cfg]).digits = 6 := by
  rw [configDefault_cons]
  dsimp only
  rw [if_pos h]

/-- Witness for the amended C2 at Digits = 9. -/
theorem C2_amended_digits_default_witness :
    ((9 : Int) < 4 ∨ 8 < (9 : Int)) ∧
    (configDefault [{ ConfigDefault with digits := 9 }]).digits = 6 :=
  ⟨Or.inr (by decide), C2_amended_digits_default { ConfigDefault with digits := 9 } (Or.inr (by decide))⟩

/-- C3: the RFC 6238 vectors. With the base32 encoding of the ASCII secret
1234567890 (x2), SHA-1, 8 digits, period 30: Unix time 59 gives 94287082,
1111111109 gives 07081804, 2000000000 gives 69279037; the 32-byte secret
under SHA-256 gives 46119246 at time 59; the 64-byte secret under SHA-512
gives 90693936 at time 59. -/
theorem C3_rfc6238_vectors :
    (New [cfgRFC AlgorithmSHA1 secretSha1]).bind (fun e => GenerateForTime e 59) =
      some (ascii ("94287082")) ∧
    (New [cfgRFC AlgorithmSHA1 secretSha1]).bind (fun e => GenerateForTime e 1111111109) =
      some (ascii ("07081804")) ∧
    (New [cfgRFC AlgorithmSHA1 secretSha1]).bind (fun e => GenerateForTime e 2000000000) =
      some (ascii ("69279037")) ∧
    (New [cfgRFC AlgorithmSHA256 secretSha256]).bind (fun e => GenerateForTime e 59) =
      some (ascii ("46119246")) ∧
    (New [cfgRFC AlgorithmSHA512 secretSha512]).bind (fun e => GenerateForTime e 59) =
      some (ascii ("90693936")) := by
  refine ⟨?_, ?_, ?_, ?_, ?_⟩
  · rw [eval_new_rfc1, Option.some_bind]; exact eval_gen_sha1_59
  · rw [eval_new_rfc1, Option.some_bind]; exact eval_gen_sha1_b
  · rw [eval_new_rfc1, Option.some_bind]; exact eval_gen_sha1_c
  · rw [eval_new_rfc256, Option.some_bind]; exact eval_gen_sha256_59
  · rw [eval_new_rfc512, Option.some_bind]; exact eval_gen_sha512_59

/-- C4 counterexample: with the MD5 engine of C1 at Unix time 30, the window
scan panics at step 0 (the C1 out-of-range bug) before reaching step 1,
so `ValidateForTime` returns no result at all, although the window at
offset 0 generates exactly the well-formed candidate: the claimed
equivalence fails for an engine whose scan aborts. -/
theorem C4_panic_window_counterexample :
    (New [cfgMD5]).bind (fun e => ValidateForTime e (ascii ("532013")) 30) = none ∧
    (New [cfgMD5]).bind
      (fun e => GenerateForTime e ((Int.fdiv 30 e.cfg.period + 0) * e.cfg.period)) =
      some (ascii ("532013")) ∧
    -cfgMD5.skew ≤ (0 : Int) ∧ (0 : Int) ≤ cfgMD5.skew ∧
    ((ascii ("532013")).length : Int) = cfgMD5.digits ∧
    isValidInteger (ascii ("532013")) = true ∧ (0 : Int) ≤ 30 := by
  refine ⟨?_, ?_, by decide, by decide, by decide, rfl, by decide⟩
  · rw [eval_new_md5, Option.some_bind]
    exact eval_val_md5_30
  · rw [eval_new_md5, Option.some_bind]
    have h30 : (Int.fdiv 30 engineMD5.cfg.period + 0) * engineMD5.cfg.period = 30 := by decide
    rw [h30]
    exact eval_gen_md5_30

/-- C4 amended: for every engine, well-formed candidate and non-negative
instant, PROVIDED the validation call returns a result (the C1
dynamic-truncation panic, reachable e.g. with MD5, can abort the scan
before a matching window is reached), `ValidateForTime` returns true
exactly when some window offset i in [-skew, skew] generates the
candidate at instant (floor(unixSeconds/period) + i) * period; and with
period 30 and skew 1 the code generated for time 59 validates at times
29, 59 and 61 but not at 91. -/
theorem C4_amended_validate_iff :
    (∀ (cfgs : List Config) (e : TOTP) (c : List Nat) (t : Int),
      New cfgs = some e → 0 ≤ t → (c.length : Int) = e.cfg.digits →
      isValidInteger c = true → ValidateForTime e c t ≠ none →
      (ValidateForTime e c t = some (true, false) ↔
        ∃ i : Int, -e.cfg.skew ≤ i ∧ i ≤ e.cfg.skew ∧
          GenerateForTime e ((Int.fdiv t e.cfg.period + i) * e.cfg.period) = some c)) ∧
    (New [cfgSkew1]).bind (fun e => ValidateForTime e (ascii ("94287082")) 29) =
      some (true, false) ∧
    (New [cfgSkew1]).bind (fun e => ValidateForTime e (ascii ("94287082")) 59) =
      some (true, false) ∧
    (New [cfgSkew1]).bind (fun e => ValidateForTime e (ascii ("94287082")) 61) =
      some (true, false) ∧
    (New [cfgSkew1]).bind (fun e => ValidateForTime e (ascii ("94287082")) 91) =
      some (false, false) := by
  refine ⟨?_, ?_, ?_, ?_, ?_⟩
  case refine_2 => rw [eval_new_skew1, Option.some_bind]; exact eval_val_29
  case refine_3 => rw [eval_new_skew1, Option.some_bind]; exact eval_val_59
  case refine_4 => rw [eval_new_skew1, Option.some_bind]; exact eval_val_61
  case refine_5 => rw [eval_new_skew1, Option.some_bind]; exact eval_val_91
  intro cfgs e c t hN ht hlen hdig hres
  obtain ⟨hcfg, _, _⟩ := New_some_inv cfgs e hN
  have hb := configDefault_bounds cfgs
  rw [← hcfg] at hb
  have hper : 0 < e.cfg.period := hb.1
  have hskew : 0 ≤ e.cfg.skew := hb.2.1
  have hval := validate_pass_format e c t hlen hdig
  rw [hval] at hres ⊢
  have hfd : Int.fdiv t e.cfg.period = Int.tdiv t e.cfg.period :=
    Int.fdiv_eq_tdiv ht (Int.le_of_lt hper)
  rw [hfd]
  have hscan : scanWindows e c (windowSteps (Int.tdiv t e.cfg.period) e.cfg.skew) ≠ none := by
    intro h0; rw [h0] at hres; exact hres rfl
  have hiff := scanWindows_some_true_iff e c _ hscan
  constructor
  · intro hvt
    rcases Option.map_eq_some'.mp hvt with ⟨b, hb2, hfb⟩
    have hbt : b = true := by
      have := congrArg Prod.fst hfb
      simpa using this
    rw [hbt] at hb2
    obtain ⟨s, hmem, hgen⟩ := hiff.mp hb2
    rw [mem_windowSteps_iff _ _ _ hskew] at hmem
    refine ⟨s - Int.tdiv t e.cfg.period, by omega, by omega, ?_⟩
    rw [show Int.tdiv t e.cfg.period + (s - Int.tdiv t e.cfg.period) = s from by omega]
    exact hgen
  · rintro ⟨i, hi1, hi2, hgen⟩
    have hmem : (Int.tdiv t e.cfg.period + i) ∈
        windowSteps (Int.tdiv t e.cfg.period) e.cfg.skew := by
      rw [mem_windowSteps_iff _ _ _ hskew]; omega
    rw [hiff.mpr ⟨_, hmem, hgen⟩]
    rfl

/-- Witness for the amended C4: with the skew-1 SHA-1 engine, the candidate
94287082 at time 59, all hypotheses hold concretely, and the equivalence
yields validity from the matching window offset 0. -/
theorem C4_amended_validate_iff_witness :
    ValidateForTime engineSkew1 (ascii ("94287082")) 59 = some (true, false) := by
  have hgen : GenerateForTime engineSkew1
      ((Int.fdiv 59 engineSkew1.cfg.period + 0) * engineSkew1.cfg.period) =
      some (ascii ("94287082")) := by
    rw [show (Int.fdiv 59 engineSkew1.cfg.period + 0) * engineSkew1.cfg.period = 30 from by decide]
    exact eval_gen_skew1_30
  exact (C4_amended_validate_iff.1 [cfgSkew1] engineSkew1 (ascii ("94287082")) 59 eval_new_skew1
    (by decide) (by decide) rfl
    (fun hn => Option.noConfusion (eval_val_59.symm.trans hn))).mpr
    ⟨0, by decide, by decide, hgen⟩

/-- C5: a candidate whose byte length differs from the configured digit
count, or containing a rune that is not a decimal digit, is rejected by
`ValidateForTime` with a negative result and the format error, for every
engine, instant and skew. -/
theorem C5_format_rejection (o : TOTP) (c : List Nat) (t : Int)
    (h : (c.length : Int) ≠ o.cfg.digits ∨ isValidInteger c = false) :
    ValidateForTime o c t = some (false, true) := by
  unfold ValidateForTime
  rw [if_pos h]

/-- Witness for C5: a 5-byte candidate against the 8-digit RFC engine. -/
theorem C5_format_rejection_witness :
    (((ascii ("12345")).length : Int) ≠ engineRFC1.cfg.digits ∨
      isValidInteger (ascii ("12345")) = false) ∧
    ValidateForTime engineRFC1 (ascii ("12345")) 59 = some (false, true) :=
  ⟨Or.inl (by decide), C5_format_rejection engineRFC1 (ascii ("12345")) 59 (Or.inl (by decide))⟩

/-- C6: engine construction base32-decodes the (unmodified) Secret text:
if decoding fails, `New` aborts (returns no engine, modelling the Go
panic); if it succeeds, the engine is built and its stored key is exactly
the decoded byte sequence. -/
theorem C6_new_base32 (cfg : Config) :
    (base32DecodeString cfg.secret = none → New [cfg] = none) ∧
    (∀ key, base32DecodeString cfg.secret = some key →
      ∃ e, New [cfg] = some e ∧ e.decodedSecret = key) := by
  have hsec : (configDefault [cfg]).secret = cfg.secret := by rw [configDefault_cons]
  constructor
  · intro hd
    unfold New
    dsimp only
    rw [hsec, hd]
    rfl
  · intro key hd
    refine ⟨{ cfg := configDefault [cfg],
              divisor := 10 ^ (configDefault [cfg]).digits.toNat,
              decodedSecret := key }, ?_, rfl⟩
    unfold New
    dsimp only
    rw [hsec, hd]
    rfl

/-- Witness for C6: an invalid (lowercase) secret aborts construction; the
valid secret ME====== yields an engine whose key is the byte of the
letter a. -/
theorem C6_new_base32_witness :
    (base32DecodeString (ascii ("me======")) = none ∧
      New [{ ConfigDefault with secret := ascii ("me======") }] = none) ∧
    ∃ e, New [{ ConfigDefault with secret := ascii ("ME======") }] = some e ∧
      e.decodedSecret = [97] :=
  ⟨⟨rfl, (C6_new_base32 { ConfigDefault with secret := ascii ("me======") }).1 rfl⟩,
   (C6_new_base32 { ConfigDefault with secret := ascii ("ME======") }).2 [97] rfl⟩

/-- C7: every code a constructed engine generates has length exactly the
configured digit count and consists only of ASCII decimal digits; and
leading zeros are preserved: the fill loop renders 42 with 6 digits as
000042. -/
theorem C7_digit_count :
    (∀ (cfgs : List Config) (e : TOTP) (t : Int) (code : List Nat),
      New cfgs = some e → GenerateForTime e t = some code →
      (code.length : Int) = e.cfg.digits ∧ code.all (fun b => 48 ≤ b && b ≤ 57) = true) ∧
    formatCode 42 6 = ascii ("000042") := by
  refine ⟨?_, rfl⟩
  intro cfgs e t code hN hG
  obtain ⟨⟨m, hm⟩, hd0, _⟩ := generate_some_shape e t code hG
  subst hm
  refine ⟨?_, formatCode_all_digits m _⟩
  rw [formatCode_length]
  omega

/-- Witness for C7: the code of the SHA-1 RFC engine at time 59. -/
theorem C7_digit_count_witness :
    ((ascii ("94287082")).length : Int) = engineRFC1.cfg.digits ∧
    (ascii ("94287082")).all (fun b => 48 ≤ b && b ≤ 57) = true :=
  C7_digit_count.1 [cfgRFC AlgorithmSHA1 secretSha1] engineRFC1 59 (ascii ("94287082"))
    eval_new_rfc1 eval_gen_sha1_59

/-- C8: an algorithm identifier outside 0..13 behaves as SHA-1: the
resolver substitutes the SHA-1 identifier, the default case of the registry
returns the SHA-1 constructor, and the engine (hence every generated
code) coincides with that of the otherwise-identical SHA-1
configuration. -/
theorem C8_unknown_algorithm_sha1 :
    (∀ cfg : Config, cfg.algorithm < 0 ∨ 13 < cfg.algorithm →
      (configDefault [cfg]).algorithm = AlgorithmSHA1 ∧
      New [cfg] = New [{ cfg with algorithm := AlgorithmSHA1 }] ∧
      ∀ t : Int, (New [cfg]).bind (fun e => GenerateForTime e t) =
        (New [{ cfg with algorithm := AlgorithmSHA1 }]).bind (fun e => GenerateForTime e t)) ∧
    (∀ a : Int, a < 0 ∨ 13 < a → Algorithm.hash a = Algorithm.hash AlgorithmSHA1) := by
  constructor
  · intro cfg h
    have hcd : configDefault [cfg] = configDefault [{ cfg with algorithm := AlgorithmSHA1 }] := by
      rw [configDefault_cons, configDefault_cons]
      dsimp only [AlgorithmSHA1]
      simp only [Config.mk.injEq, and_true]
      rw [if_pos h, if_neg (by decide)]
    refine ⟨?_, ?_, ?_⟩
    · rw [configDefault_cons]
      dsimp only
      rw [if_pos h]
      rfl
    · unfold New
      rw [hcd]
    · intro t
      unfold New
      rw [hcd]
  · intro a h
    unfold Algorithm.hash
    repeat rw [if_neg (by omega)]
    rfl

/-- Witness for C8 at the out-of-range identifier 99. -/
theorem C8_unknown_algorithm_sha1_witness :
    ((configDefault [{ ConfigDefault with algorithm := 99 }]).algorithm = AlgorithmSHA1 ∧
      New [{ ConfigDefault with algorithm := 99 }] =
        New [{ { ConfigDefault with algorithm := 99 } with algorithm := AlgorithmSHA1 }]) ∧
    Algorithm.hash 99 = Algorithm.hash AlgorithmSHA1 := by
  have h1 := (C8_unknown_algorithm_sha1.1 { ConfigDefault with algorithm := 99 }
    (Or.inr (by decide)))
  exact ⟨⟨h1.1, h1.2.1⟩, C8_unknown_algorithm_sha1.2 99 (Or.inr (by decide))⟩

/-- C9: the resolver is a frame: the Secret text is never modified, and
each of the four validated fields, when already inside its valid domain
(algorithm 0..13, digits in {4,5,6,8}, period positive, skew
non-negative), passes through unchanged. -/
theorem C9_resolver_frame (cfg : Config) :
    (configDefault [cfg]).secret = cfg.secret ∧
    (0 ≤ cfg.algorithm → cfg.algorithm ≤ 13 →
      (configDefault [cfg]).algorithm = cfg.algorithm) ∧
    ((cfg.digits = 4 ∨ cfg.digits = 5 ∨ cfg.digits = 6 ∨ cfg.digits = 8) →
      (configDefault [cfg]).digits = cfg.digits) ∧
    (0 < cfg.period → (configDefault [cfg]).period = cfg.period) ∧
    (0 ≤ cfg.skew → (configDefault [cfg]).skew = cfg.skew) := by
  rw [configDefault_cons]
  refine ⟨rfl, ?_, ?_, ?_, ?_⟩ <;> intros <;> dsimp only <;> rw [if_neg (by omega)]

/-- Witness for C9 at the RFC SHA-1 configuration (all fields in domain). -/
theorem C9_resolver_frame_witness :
    (configDefault [cfgRFC AlgorithmSHA1 secretSha1]).secret =
      (cfgRFC AlgorithmSHA1 secretSha1).secret ∧
    (configDefault [cfgRFC AlgorithmSHA1 secretSha1]).algorithm =
      (cfgRFC AlgorithmSHA1 secretSha1).algorithm ∧
    (configDefault [cfgRFC AlgorithmSHA1 secretSha1]).digits =
      (cfgRFC AlgorithmSHA1 secretSha1).digits ∧
    (configDefault [cfgRFC AlgorithmSHA1 secretSha1]).period =
      (cfgRFC AlgorithmSHA1 secretSha1).period ∧
    (configDefault [cfgRFC AlgorithmSHA1 secretSha1]).skew =
      (cfgRFC AlgorithmSHA1 secretSha1).skew := by
  have h := C9_resolver_frame (cfgRFC AlgorithmSHA1 secretSha1)
  exact ⟨h.1, h.2.1 (by decide) (by decide), h.2.2.1 (by decide),
    h.2.2.2.1 (by decide), h.2.2.2.2 (by decide)⟩

/-- C10: the format check measures length in bytes and accepts any Unicode
decimal digit: the 6-byte candidate of three ARABIC-INDIC DIGIT ZERO
characters passes the format check of a 6-digit engine (no format
error), yet it can never equal a generated code (those are ASCII), so
whenever validation returns a result for it, that result is the plain
negative (false, no error). -/
theorem C10_unicode_digit_candidate :
    (candArabic.length = 6 ∧ candArabic.any (fun b => 127 < b) = true ∧
      isValidInteger candArabic = true) ∧
    (∀ (cfgs : List Config) (e : TOTP) (t : Int) (r : Bool × Bool),
      New cfgs = some e → e.cfg.digits = 6 →
      ValidateForTime e candArabic t = some r → r = (false, false)) := by
  refine ⟨⟨rfl, rfl, rfl⟩, ?_⟩
  intro cfgs e t r hN h6 hv
  have hlen : ((candArabic.length : Int)) = e.cfg.digits := by rw [h6]; rfl
  rw [validate_pass_format e candArabic t hlen rfl] at hv
  rcases Option.map_eq_some'.mp hv with ⟨b, hb, hfb⟩
  have hbf : b = false := scan_no_high_byte_match e candArabic (by decide) _ b hb
  rw [← hfb, hbf]

/-- Witness for C10: a 6-digit SHA-1 skew-0 engine at time 59. -/
theorem C10_unicode_digit_candidate_witness :
    ((false, false) : Bool × Bool) = (false, false) :=
  C10_unicode_digit_candidate.2 [cfgSix] engineSix 59 (false, false) eval_new_six rfl
    eval_val_six_arabic

